import Mathlib

/-!
Verification of the `opt-parse` command-line option parser
(`src/opt-parse.h`) against its natural-language specification.

The C++ code is a single static routine `Opt::parseCmdLine(argc, argv, opts)`
over a vector of descriptors.  Each descriptor (class `Opt`) holds a compiled
regular expression `r_`, a help line `help_` built by the constructor as
`"  " + pattern + ":\t" + help`, and a handler `h_` invoked with the match
results.  The parse loop walks `argv[1..]`; a token equal to `"--help"` sets
`showUsage`; otherwise the option table is scanned in order and the first
descriptor for which `std::regex_match` succeeds has its handler called;
if none matches, `Unrecognised option: <tok>` goes to stderr and `showUsage`
is set.  After the loop, if `showUsage` is set the usage listing is printed
to stdout, and the function returns `!showUsage`.

The embedding below mirrors that routine.  `std::regex_match` (a full-string
match producing captured subgroups) is embedded as an abstract field
`matchFn : String → Option (List String)`; a concrete derivative-based
regular-expression matcher `rmatch` is provided to settle the claims that
depend on full-match (as opposed to substring-search) semantics.  Handlers
mutate caller-owned state, modelled by threading a state of an arbitrary
type `σ` through the loop; in addition the loop records an invocation trace
`(descriptor index, captures)` so that "which handler ran, with what, in
what order" is observable.
-/

/-- One option descriptor, mirroring class `Opt` of `src/opt-parse.h`:
`pattern` and `helpText` are the two strings given to the constructor
(lines 46-54), `matchFn` is the semantics of `std::regex_match(tok, results, r_)`
for the compiled pattern — `some caps` on a full match with captured
subgroups `caps`, `none` otherwise — and `h_` is the handler, acting on
caller-owned state of type `σ`. -/
structure Opt (σ : Type) where
  pattern : String
  matchFn : String → Option (List String)
  helpText : String
  h_ : List String → σ → σ

/-- The help line the `Opt` constructor stores in `help_`
(line 51 of `src/opt-parse.h`): `"  " + pattern + ":\t" + help`. -/
def Opt.help_ {σ : Type} (o : Opt σ) : String :=
  "  " ++ o.pattern ++ ":\t" ++ o.helpText

/-- The inner scan loop of `parseCmdLine` (lines 74-88): walk the option
table in order and stop at the first descriptor whose pattern matches the
token.  Returns the descriptor, its index in the table and the captured
subgroups, or `none` when no descriptor matches. -/
def findOpt {σ : Type} (opts : List (Opt σ)) (tok : String) :
    Option (Opt σ × Nat × List String) :=
  match opts with
  | [] => none
  | o :: rest =>
    match o.matchFn tok with
    | some caps => some (o, 0, caps)
    | none => (findOpt rest tok).map (fun x => (x.1, x.2.1 + 1, x.2.2))

/-- The mutable state of the parse loop: the `showUsage` flag (line 64),
the caller-owned state the handlers act on, the trace of handler
invocations `(descriptor index, captures)`, and the stderr lines emitted
so far. -/
structure ParseState (σ : Type) where
  showUsage : Bool
  state : σ
  invocations : List (Nat × List String)
  stderr : List String

/-- One iteration of the argument loop of `parseCmdLine`
(lines 66-95): a token equal to `"--help"` only sets `showUsage`
(lines 68-71); otherwise the table is scanned and the first match's
handler is invoked (lines 74-88); if no descriptor matches,
`Unrecognised option: <tok>` is emitted on stderr and `showUsage` is set
(lines 89-93). -/
def processToken {σ : Type} (opts : List (Opt σ)) (acc : ParseState σ)
    (tok : String) : ParseState σ :=
  if tok = "--help" then
    { acc with showUsage := true }
  else
    match findOpt opts tok with
    | some (o, i, caps) =>
      { acc with
          state := o.h_ caps acc.state,
          invocations := acc.invocations ++ [(i, caps)] }
    | none =>
      { acc with
          stderr := acc.stderr ++ ["Unrecognised option: " ++ tok],
          showUsage := true }

/-- The usage listing printed when `showUsage` is set (lines 97-105):
`Usage: <program name>`, one help line per descriptor in table order,
then a blank line. -/
def usageLines {σ : Type} (prog : String) (opts : List (Opt σ)) : List String :=
  ("Usage: " ++ prog) :: (opts.map Opt.help_ ++ [""])

/-- The observable outcome of `parseCmdLine`: the boolean return value,
the final caller-owned state, the handler-invocation trace, and the lines
printed on stdout and stderr. -/
structure ParseOutput (σ : Type) where
  ret : Bool
  state : σ
  invocations : List (Nat × List String)
  stdout : List String
  stderr : List String

/-- `Opt::parseCmdLine` (lines 62-108 of `src/opt-parse.h`): `prog` is
`argv[0]`, `args` the tokens `argv[1..argc-1]`, `opts` the option table and
`s` the initial caller-owned state.  The loop over the tokens is a left
fold of `processToken`; afterwards the usage listing is printed when
`showUsage` is set, and the return value is `!showUsage` (line 107). -/
def parseCmdLine {σ : Type} (prog : String) (args : List String)
    (opts : List (Opt σ)) (s : σ) : ParseOutput σ :=
  let fin := args.foldl (processToken opts) ⟨false, s, [], []⟩
  { ret := !fin.showUsage
    state := fin.state
    invocations := fin.invocations
    stdout := if fin.showUsage then usageLines prog opts else []
    stderr := fin.stderr }

/-! ### A concrete regular-expression model

`std::regex_match` succeeds only when the pattern matches the *entire*
token.  To state that fact about the code (claim on line 79) we provide a
small regular-expression language with Brzozowski-derivative matching;
`rmatch r cs` decides whether `r` matches the whole character list `cs`. -/

/-- Abstract syntax of regular expressions: empty language, empty string,
single character, any character (`.`), concatenation, alternation (`|`)
and Kleene star (`*`). -/
inductive Regex where
  | emptyset : Regex
  | eps : Regex
  | char : Char → Regex
  | dot : Regex
  | concat : Regex → Regex → Regex
  | alt : Regex → Regex → Regex
  | star : Regex → Regex

/-- Whether a regular expression accepts the empty string. -/
def Regex.nullable : Regex → Bool
  | .emptyset => false
  | .eps => true
  | .char _ => false
  | .dot => false
  | .concat a b => a.nullable && b.nullable
  | .alt a b => a.nullable || b.nullable
  | .star _ => true

/-- Brzozowski derivative of a regular expression by a character. -/
def Regex.deriv : Regex → Char → Regex
  | .emptyset, _ => .emptyset
  | .eps, _ => .emptyset
  | .char c, a => if a = c then .eps else .emptyset
  | .dot, _ => .eps
  | .concat r1 r2, a =>
    if r1.nullable then .alt (.concat (r1.deriv a) r2) (r2.deriv a)
    else .concat (r1.deriv a) r2
  | .alt r1 r2, a => .alt (r1.deriv a) (r2.deriv a)
  | .star r, a => .concat (r.deriv a) (.star r)

/-- Full match: `r` matches exactly the character list `cs` (the semantics
of `std::regex_match`, which anchors the pattern at both ends). -/
def rmatch (r : Regex) (cs : List Char) : Bool :=
  (cs.foldl Regex.deriv r).nullable

/-- The regular expression matching one literal string. -/
def Regex.lit (s : String) : Regex :=
  s.data.foldr (fun c r => .concat (.char c) r) .eps

/-- A descriptor whose pattern is the concrete regular expression `r`:
its `matchFn` is `std::regex_match` semantics — it succeeds only when `r`
matches the entire token. -/
def Opt.ofRegex {σ : Type} (r : Regex) (pat hlp : String)
    (h : List String → σ → σ) : Opt σ :=
  { pattern := pat
    matchFn := fun tok => if rmatch r tok.data then some [] else none
    helpText := hlp
    h_ := h }

/-! ### Traces of the loop -/

/-- The handler invocations `(descriptor index, captures)` the loop
performs for `args`, in argument order: tokens equal to `"--help"` and
unmatched tokens contribute nothing; every other token contributes its
first match. -/
def tokenTrace {σ : Type} (opts : List (Opt σ)) (args : List String) :
    List (Nat × List String) :=
  args.filterMap (fun t =>
    if t = "--help" then none
    else (findOpt opts t).map (fun x => (x.2.1, x.2.2)))

/-- The stderr lines the loop emits for `args`, in argument order: one
`Unrecognised option: <tok>` per non-`--help` token with no match. -/
def errTrace {σ : Type} (opts : List (Opt σ)) (args : List String) :
    List String :=
  args.filterMap (fun t =>
    if t = "--help" then none
    else
      match findOpt opts t with
      | some _ => none
      | none => some ("Unrecognised option: " ++ t))

/-- The caller-owned state after the loop has processed `args` starting
from `s`: each non-`--help` token with a first match has that match's
handler applied, in argument order. -/
def stateTrace {σ : Type} (opts : List (Opt σ)) (args : List String) (s : σ) : σ :=
  args.foldl
    (fun st t =>
      if t = "--help" then st
      else
        match findOpt opts t with
        | some (o, _, caps) => o.h_ caps st
        | none => st) s

/-- Whether the loop requests usage for `args`: some token is `"--help"`
or some non-`--help` token has no match. -/
def usageRequested {σ : Type} (opts : List (Opt σ)) (args : List String) : Bool :=
  args.any (fun t => t == "--help" || (findOpt opts t).isNone)

/-- The handler application performed for one recorded invocation
`(i, caps)`: descriptor `i` of the table applied to the captures. -/
def applyHandler {σ : Type} (opts : List (Opt σ)) (s : σ)
    (inv : Nat × List String) : σ :=
  match opts[inv.1]? with
  | some o => o.h_ inv.2 s
  | none => s

/-- Shape equality of two descriptors, possibly over different state
types: same pattern string, same help text and same match function — they
differ at most in their handlers.  Used to state that the parse reads
nothing of a descriptor beyond these fields except when invoking its
handler. -/
def OptShape {σ τ : Type} (a : Opt σ) (b : Opt τ) : Prop :=
  a.pattern = b.pattern ∧ a.helpText = b.helpText ∧ a.matchFn = b.matchFn

/-! ### Concrete example descriptors -/

/-- A descriptor whose pattern matches exactly the token `--help` (the
C++ pattern `--help`, where every character is a regex literal) and whose
handler records its invocation by setting the state to `true`. -/
def helpMatcher : Opt Bool :=
  { pattern := "--help"
    matchFn := fun tok => if tok = "--help" then some [] else none
    helpText := "show help"
    h_ := fun _ _ => true }

/-- Example descriptor matching the token `--abc` with captured subgroup
`bc`. -/
def optFirst : Opt Unit :=
  { pattern := "--a(.*)"
    matchFn := fun tok => if tok = "--abc" then some ["bc"] else none
    helpText := "first option"
    h_ := fun _ s => s }

/-- Example descriptor also matching the token `--abc` (with captured
subgroup `c`), meant to be registered after `optFirst`. -/
def optSecond : Opt Unit :=
  { pattern := "--ab(.*)"
    matchFn := fun tok => if tok = "--abc" then some ["c"] else none
    helpText := "second option"
    h_ := fun _ s => s }

/-- Example descriptor over a `Nat` counter: matches exactly `--inc` and
adds 1. -/
def natOptA : Opt Nat :=
  { pattern := "--inc"
    matchFn := fun tok => if tok = "--inc" then some [] else none
    helpText := "increment"
    h_ := fun _ n => n + 1 }

/-- Same shape as `natOptA` (same pattern, help and match function) but a
different handler: it adds 5. -/
def natOptB : Opt Nat :=
  { pattern := "--inc"
    matchFn := fun tok => if tok = "--inc" then some [] else none
    helpText := "increment"
    h_ := fun _ n => n + 5 }

/-- A descriptor over `Unit` whose pattern matches exactly `--help`. -/
def helpish : Opt Unit :=
  { pattern := "--help"
    matchFn := fun tok => if tok = "--help" then some [] else none
    helpText := "help-like option"
    h_ := fun _ s => s }

/-! ### Loop lemmas -/

/-- A `"--help"` token only sets `showUsage` (lines 68-71): the table is
not consulted, no handler runs, nothing is printed. -/
theorem processToken_help {σ : Type} (opts : List (Opt σ)) (acc : ParseState σ) :
    processToken opts acc "--help" = { acc with showUsage := true } := by
  simp [processToken]

/-- The `showUsage` flag after the loop: its initial value, or some token
requested usage. -/
theorem foldl_showUsage {σ : Type} (opts : List (Opt σ)) (args : List String)
    (acc : ParseState σ) :
    (args.foldl (processToken opts) acc).showUsage
      = (acc.showUsage || usageRequested opts args) := by
  induction args generalizing acc with
  | nil => simp [usageRequested]
  | cons t rest ih =>
    rw [List.foldl_cons, ih]
    by_cases ht : t = "--help"
    · subst ht
      simp [processToken, usageRequested]
    · have hbe : (t == "--help") = false := by simp [ht]
      rcases hf : findOpt opts t with _ | x
      · simp [processToken, ht, hf, usageRequested, hbe, Bool.or_comm, Bool.or_assoc,
          Bool.or_left_comm]
      · obtain ⟨o, i, caps⟩ := x
        simp [processToken, ht, hf, usageRequested, hbe]

/-- The invocation trace after the loop: whatever was recorded before,
extended by the trace of the processed tokens. -/
theorem foldl_invocations {σ : Type} (opts : List (Opt σ)) (args : List String)
    (acc : ParseState σ) :
    (args.foldl (processToken opts) acc).invocations
      = acc.invocations ++ tokenTrace opts args := by
  induction args generalizing acc with
  | nil => simp [tokenTrace]
  | cons t rest ih =>
    rw [List.foldl_cons, ih]
    by_cases ht : t = "--help"
    · subst ht
      simp [processToken, tokenTrace]
    · rcases hf : findOpt opts t with _ | x
      · simp [processToken, ht, hf, tokenTrace]
      · obtain ⟨o, i, caps⟩ := x
        simp [processToken, ht, hf, tokenTrace]

/-- The stderr lines after the loop: whatever was emitted before, then one
diagnostic per unmatched non-`--help` token, in argument order. -/
theorem foldl_stderr {σ : Type} (opts : List (Opt σ)) (args : List String)
    (acc : ParseState σ) :
    (args.foldl (processToken opts) acc).stderr
      = acc.stderr ++ errTrace opts args := by
  induction args generalizing acc with
  | nil => simp [errTrace]
  | cons t rest ih =>
    rw [List.foldl_cons, ih]
    by_cases ht : t = "--help"
    · subst ht
      simp [processToken, errTrace]
    · rcases hf : findOpt opts t with _ | x
      · simp [processToken, ht, hf, errTrace]
      · obtain ⟨o, i, caps⟩ := x
        simp [processToken, ht, hf, errTrace]

/-- The caller-owned state after the loop: the initial state with the
handler of each token's first match applied, in argument order. -/
theorem foldl_state {σ : Type} (opts : List (Opt σ)) (args : List String)
    (acc : ParseState σ) :
    (args.foldl (processToken opts) acc).state
      = stateTrace opts args acc.state := by
  induction args generalizing acc with
  | nil => simp [stateTrace]
  | cons t rest ih =>
    rw [List.foldl_cons, ih]
    by_cases ht : t = "--help"
    · subst ht
      simp [processToken, stateTrace]
    · rcases hf : findOpt opts t with _ | x
      · simp [processToken, ht, hf, stateTrace]
      · obtain ⟨o, i, caps⟩ := x
        simp [processToken, ht, hf, stateTrace]

/-! ### Properties of the table scan -/

/-- The scan succeeds exactly when some descriptor of the table matches
the token. -/
theorem findOpt_isSome_iff {σ : Type} (opts : List (Opt σ)) (tok : String) :
    (findOpt opts tok).isSome ↔ ∃ o ∈ opts, (o.matchFn tok).isSome := by
  induction opts with
  | nil => simp [findOpt]
  | cons a rest ih =>
    rcases ha : a.matchFn tok with _ | caps
    · simp [findOpt, ha, ih]
    · simp [findOpt, ha]

/-- The scan fails exactly when no descriptor of the table matches the
token. -/
theorem findOpt_eq_none_iff {σ : Type} (opts : List (Opt σ)) (tok : String) :
    findOpt opts tok = none ↔ ∀ o ∈ opts, o.matchFn tok = none := by
  induction opts with
  | nil => simp [findOpt]
  | cons a rest ih =>
    rcases ha : a.matchFn tok with _ | caps
    · simp [findOpt, ha, ih]
    · simp [findOpt, ha]

/-- What a successful scan returns: the descriptor at the returned index,
whose pattern matches the token with the returned captures, while every
earlier descriptor fails to match — the scan stops at the first match
(lines 74-88). -/
theorem findOpt_spec {σ : Type} (opts : List (Opt σ)) (tok : String)
    (o : Opt σ) (i : Nat) (caps : List String)
    (h : findOpt opts tok = some (o, i, caps)) :
    opts[i]? = some o ∧ o.matchFn tok = some caps ∧
      ∀ j oj, j < i → opts[j]? = some oj → oj.matchFn tok = none := by
  induction opts generalizing o i caps with
  | nil => simp [findOpt] at h
  | cons a rest ih =>
    rcases ha : a.matchFn tok with _ | caps0
    · simp only [findOpt, ha, Option.map_eq_some'] at h
      obtain ⟨⟨o1, i1, caps1⟩, hfind, heq⟩ := h
      simp only [Prod.mk.injEq] at heq
      obtain ⟨ho, hi, hcaps⟩ := heq
      subst ho hi hcaps
      obtain ⟨hget, hmatch, hfirst⟩ := ih o1 i1 caps1 hfind
      refine ⟨by simpa using hget, hmatch, ?_⟩
      intro j oj hj hoj
      cases j with
      | zero =>
        have hoa : a = oj := by simpa using hoj
        rw [← hoa]
        exact ha
      | succ jj =>
        have hjj : jj < i1 := Nat.lt_of_succ_lt_succ hj
        exact hfirst jj oj hjj (by simpa using hoj)
    · simp only [findOpt, ha, Option.some.injEq, Prod.mk.injEq] at h
      obtain ⟨ho, hi, hcaps⟩ := h
      subst ho hi hcaps
      exact ⟨by simp, ha, fun j oj hj _ => absurd hj (Nat.not_lt_zero j)⟩

/-! ### Characterisation of `parseCmdLine` -/

/-- The return value (line 107): `!showUsage`. -/
theorem parseCmdLine_ret {σ : Type} (prog : String) (args : List String)
    (opts : List (Opt σ)) (s : σ) :
    (parseCmdLine prog args opts s).ret = !usageRequested opts args := by
  simp [parseCmdLine, foldl_showUsage]

/-- The invocation trace of a full parse. -/
theorem parseCmdLine_invocations {σ : Type} (prog : String) (args : List String)
    (opts : List (Opt σ)) (s : σ) :
    (parseCmdLine prog args opts s).invocations = tokenTrace opts args := by
  simp [parseCmdLine, foldl_invocations]

/-- The stderr lines of a full parse. -/
theorem parseCmdLine_stderr {σ : Type} (prog : String) (args : List String)
    (opts : List (Opt σ)) (s : σ) :
    (parseCmdLine prog args opts s).stderr = errTrace opts args := by
  simp [parseCmdLine, foldl_stderr]

/-- The final caller-owned state of a full parse. -/
theorem parseCmdLine_state {σ : Type} (prog : String) (args : List String)
    (opts : List (Opt σ)) (s : σ) :
    (parseCmdLine prog args opts s).state = stateTrace opts args s := by
  simp [parseCmdLine, foldl_state]

/-- The stdout lines of a full parse: the usage listing exactly when some
token requested usage, nothing otherwise. -/
theorem parseCmdLine_stdout {σ : Type} (prog : String) (args : List String)
    (opts : List (Opt σ)) (s : σ) :
    (parseCmdLine prog args opts s).stdout
      = if usageRequested opts args then usageLines prog opts else [] := by
  simp [parseCmdLine, foldl_showUsage]

/-- Usage is not requested exactly when no token is `"--help"` and every
token has a matching descriptor. -/
theorem usageRequested_eq_false_iff {σ : Type} (opts : List (Opt σ))
    (args : List String) :
    usageRequested opts args = false ↔
      ∀ tok ∈ args, tok ≠ "--help" ∧ (findOpt opts tok).isSome := by
  rw [usageRequested, List.any_eq_false]
  apply forall_congr'
  intro tok
  apply imp_congr_right
  intro _
  simp [not_or, Option.isNone_iff_eq_none, Option.isSome_iff_ne_none]

/-- Splitting the per-token form into the claim's form: "`--help` absent
and every token matched". -/
theorem all_ok_split (args : List String) (P : String → Prop) :
    (∀ tok ∈ args, tok ≠ "--help" ∧ P tok) ↔
      ("--help" ∉ args ∧ ∀ tok ∈ args, P tok) := by
  constructor
  · intro h
    constructor
    · intro hmem
      exact (h _ hmem).1 rfl
    · intro tok hmem
      exact (h tok hmem).2
  · rintro ⟨hnh, hall⟩ tok hmem
    refine ⟨?_, hall tok hmem⟩
    rintro rfl
    exact hnh hmem

/-- A token equal to `"--help"` requests usage. -/
theorem usageRequested_of_help_mem {σ : Type} (opts : List (Opt σ))
    (args : List String) (h : "--help" ∈ args) :
    usageRequested opts args = true := by
  simp only [usageRequested, List.any_eq_true]
  exact ⟨"--help", h, by simp⟩

/-- A non-`--help` token with no match requests usage. -/
theorem usageRequested_of_unmatched {σ : Type} (opts : List (Opt σ))
    (args : List String) (tok : String) (hmem : tok ∈ args)
    (hfind : findOpt opts tok = none) :
    usageRequested opts args = true := by
  simp only [usageRequested, List.any_eq_true]
  exact ⟨tok, hmem, by simp [hfind]⟩

/-- The final state is exactly the recorded invocations replayed over the
table, in order: the parse mutates nothing except through the handlers it
invoked. -/
theorem stateTrace_eq_foldl {σ : Type} (opts : List (Opt σ)) (args : List String)
    (s : σ) :
    stateTrace opts args s = (tokenTrace opts args).foldl (applyHandler opts) s := by
  induction args generalizing s with
  | nil => simp [stateTrace, tokenTrace]
  | cons t rest ih =>
    by_cases ht : t = "--help"
    · simp [stateTrace, tokenTrace, List.foldl_cons, List.filterMap_cons, ht]
      exact ih s
    · rcases hf : findOpt opts t with _ | ⟨o, i, caps⟩
      · simp [stateTrace, tokenTrace, List.foldl_cons, List.filterMap_cons, ht, hf]
        exact ih s
      · have hget : opts[i]? = some o := (findOpt_spec opts t o i caps hf).1
        simp [stateTrace, tokenTrace, List.foldl_cons, List.filterMap_cons, ht, hf,
          applyHandler, hget]
        exact ih (o.h_ caps s)

/-! ### The scan reads only the shape of the table -/

/-- Two tables of the same shape scan identically: same match/no-match
outcome, same index and same captures. -/
theorem findOpt_shape {σ τ : Type} {opts : List (Opt σ)} {opts2 : List (Opt τ)}
    (h : List.Forall₂ OptShape opts opts2) (tok : String) :
    (findOpt opts tok).map (fun x => (x.2.1, x.2.2))
      = (findOpt opts2 tok).map (fun x => (x.2.1, x.2.2)) := by
  induction h with
  | nil => simp [findOpt]
  | @cons a b l1 l2 hab hrest ih =>
    obtain ⟨hp, hh, hm⟩ := hab
    rcases ha : a.matchFn tok with _ | caps
    · have hb : b.matchFn tok = none := by rw [← hm]; exact ha
      have lhs : ((findOpt l1 tok).map (fun x => (x.1, x.2.1 + 1, x.2.2))).map
          (fun x => (x.2.1, x.2.2))
          = ((findOpt l1 tok).map (fun x => (x.2.1, x.2.2))).map
              (fun p => (p.1 + 1, p.2)) := by
        cases findOpt l1 tok <;> rfl
      have rhs : ((findOpt l2 tok).map (fun x => (x.1, x.2.1 + 1, x.2.2))).map
          (fun x => (x.2.1, x.2.2))
          = ((findOpt l2 tok).map (fun x => (x.2.1, x.2.2))).map
              (fun p => (p.1 + 1, p.2)) := by
        cases findOpt l2 tok <;> rfl
      simp only [findOpt, ha, hb, lhs, rhs, ih]
    · have hb : b.matchFn tok = some caps := by rw [← hm]; exact ha
      simp [findOpt, ha, hb]

/-- Two tables of the same shape agree on whether the scan fails. -/
theorem findOpt_isNone_shape {σ τ : Type} {opts : List (Opt σ)}
    {opts2 : List (Opt τ)} (h : List.Forall₂ OptShape opts opts2) (tok : String) :
    (findOpt opts tok).isNone = (findOpt opts2 tok).isNone := by
  have hmap := findOpt_shape h tok
  cases h1 : findOpt opts tok <;> cases h2 : findOpt opts2 tok <;>
    simp [h1, h2] at hmap ⊢

/-- Two tables of the same shape produce the same invocation trace. -/
theorem tokenTrace_shape {σ τ : Type} {opts : List (Opt σ)} {opts2 : List (Opt τ)}
    (h : List.Forall₂ OptShape opts opts2) (args : List String) :
    tokenTrace opts args = tokenTrace opts2 args := by
  unfold tokenTrace
  have hfun : (fun t => if t = "--help" then none
        else (findOpt opts t).map (fun x => (x.2.1, x.2.2)))
      = (fun t => if t = "--help" then none
        else (findOpt opts2 t).map (fun x => (x.2.1, x.2.2))) := by
    funext t
    by_cases ht : t = "--help"
    · simp [ht]
    · simp [ht, findOpt_shape h t]
  rw [hfun]

/-- Two tables of the same shape produce the same diagnostics. -/
theorem errTrace_shape {σ τ : Type} {opts : List (Opt σ)} {opts2 : List (Opt τ)}
    (h : List.Forall₂ OptShape opts opts2) (args : List String) :
    errTrace opts args = errTrace opts2 args := by
  unfold errTrace
  have hfun : (fun t => if t = "--help" then none
        else match findOpt opts t with
          | some _ => none
          | none => some ("Unrecognised option: " ++ t))
      = (fun t => if t = "--help" then none
        else match findOpt opts2 t with
          | some _ => none
          | none => some ("Unrecognised option: " ++ t)) := by
    funext t
    by_cases ht : t = "--help"
    · simp [ht]
    · have hiso := findOpt_isNone_shape h t
      cases h1 : findOpt opts t <;> cases h2 : findOpt opts2 t <;>
        simp [h1, h2, ht] at hiso ⊢
  rw [hfun]

/-- Two tables of the same shape agree on whether usage is requested. -/
theorem usageRequested_shape {σ τ : Type} {opts : List (Opt σ)}
    {opts2 : List (Opt τ)} (h : List.Forall₂ OptShape opts opts2)
    (args : List String) :
    usageRequested opts args = usageRequested opts2 args := by
  unfold usageRequested
  have hfun : (fun t => t == "--help" || (findOpt opts t).isNone)
      = (fun t => t == "--help" || (findOpt opts2 t).isNone) := by
    funext t
    rw [findOpt_isNone_shape h t]
  rw [hfun]

/-- Two tables of the same shape print the same usage listing. -/
theorem usageLines_shape {σ τ : Type} {opts : List (Opt σ)} {opts2 : List (Opt τ)}
    (h : List.Forall₂ OptShape opts opts2) (prog : String) :
    usageLines prog opts = usageLines prog opts2 := by
  unfold usageLines
  have hmap : opts.map Opt.help_ = opts2.map Opt.help_ := by
    induction h with
    | nil => rfl
    | @cons a b l1 l2 hab hrest ih =>
      obtain ⟨hp, hh, hm⟩ := hab
      have hhelp : a.help_ = b.help_ := by
        unfold Opt.help_
        rw [hp, hh]
      simp [hhelp, ih]
  rw [hmap]

/-! ### `--help` tokens contribute nothing to the traces -/

/-- Dropping the `--help` tokens from the argument vector leaves the
invocation trace unchanged. -/
theorem tokenTrace_filter_help {σ : Type} (opts : List (Opt σ)) (args : List String) :
    tokenTrace opts (args.filter (fun t => !(t == "--help"))) = tokenTrace opts args := by
  induction args with
  | nil => rfl
  | cons t rest ih =>
    by_cases ht : t = "--help"
    · simp [List.filter_cons, tokenTrace, List.filterMap_cons, ht]
      simpa [tokenTrace] using ih
    · rcases hf : findOpt opts t with _ | x
      · simp [List.filter_cons, tokenTrace, List.filterMap_cons, ht, hf]
        simpa [tokenTrace] using ih
      · simp [List.filter_cons, tokenTrace, List.filterMap_cons, ht, hf]
        simpa [tokenTrace] using ih

/-- Dropping the `--help` tokens from the argument vector leaves the final
caller-owned state unchanged. -/
theorem stateTrace_filter_help {σ : Type} (opts : List (Opt σ)) (args : List String)
    (s : σ) :
    stateTrace opts (args.filter (fun t => !(t == "--help"))) s = stateTrace opts args s := by
  induction args generalizing s with
  | nil => rfl
  | cons t rest ih =>
    by_cases ht : t = "--help"
    · simp [List.filter_cons, stateTrace, List.foldl_cons, ht]
      simpa [stateTrace] using ih s
    · rcases hf : findOpt opts t with _ | ⟨o, i, caps⟩
      · simp [List.filter_cons, stateTrace, List.foldl_cons, ht, hf]
        simpa [stateTrace] using ih s
      · simp [List.filter_cons, stateTrace, List.foldl_cons, ht, hf]
        simpa [stateTrace] using ih (o.h_ caps s)

/-- When every token is a non-`--help` token with a match, the loop
performs exactly one handler invocation per token. -/
theorem tokenTrace_length {σ : Type} (opts : List (Opt σ)) (args : List String)
    (h : ∀ tok ∈ args, tok ≠ "--help" ∧ (findOpt opts tok).isSome) :
    (tokenTrace opts args).length = args.length := by
  induction args with
  | nil => rfl
  | cons t rest ih =>
    obtain ⟨hne, hsome⟩ := h t (by simp)
    obtain ⟨x, hx⟩ := Option.isSome_iff_exists.mp hsome
    simp only [tokenTrace, List.filterMap_cons, hne, if_false, hx, Option.map_some',
      List.length_cons]
    have := ih (fun tok hmem => h tok (by simp [hmem]))
    simpa [tokenTrace] using this

/-! ### The claims -/

/-- Claim C1: `parseCmdLine` returns `true` if and only if every argument
token (excluding the program name) matched some descriptor's pattern and
the literal token `--help` was not present in the argument vector; in
every other case it returns `false`. -/
theorem C1_ret_true_iff {σ : Type} (prog : String) (args : List String)
    (opts : List (Opt σ)) (s : σ) :
    (parseCmdLine prog args opts s).ret = true ↔
      ("--help" ∉ args ∧ ∀ tok ∈ args, ∃ o ∈ opts, (o.matchFn tok).isSome) := by
  have h1 : (parseCmdLine prog args opts s).ret = true ↔
      usageRequested opts args = false := by
    rw [parseCmdLine_ret]
    cases usageRequested opts args <;> simp
  rw [h1, usageRequested_eq_false_iff,
    all_ok_split args (fun tok => (findOpt opts tok).isSome)]
  constructor
  · rintro ⟨hn, hall⟩
    exact ⟨hn, fun tok hmem => (findOpt_isSome_iff opts tok).1 (hall tok hmem)⟩
  · rintro ⟨hn, hall⟩
    exact ⟨hn, fun tok hmem => (findOpt_isSome_iff opts tok).2 (hall tok hmem)⟩

/-- Claim C2: for a token that is not the literal `--help`, the Option
Table is scanned in registration order and exactly the first descriptor
whose pattern matches the token has its action invoked, with the match's
captured subgroups: the matching descriptor sits at the returned index,
every earlier descriptor fails to match, and processing the token performs
exactly that one handler application and records exactly that one
invocation — no later descriptor's action runs for the token. -/
theorem C2_first_match_wins {σ : Type} (opts : List (Opt σ)) (tok : String)
    (acc : ParseState σ) (o : Opt σ) (i : Nat) (caps : List String)
    (hne : tok ≠ "--help") (hfind : findOpt opts tok = some (o, i, caps)) :
    opts[i]? = some o ∧ o.matchFn tok = some caps ∧
      (∀ j oj, j < i → opts[j]? = some oj → oj.matchFn tok = none) ∧
      processToken opts acc tok =
        { acc with
            state := o.h_ caps acc.state,
            invocations := acc.invocations ++ [(i, caps)] } := by
  obtain ⟨h1, h2, h3⟩ := findOpt_spec opts tok o i caps hfind
  refine ⟨h1, h2, h3, ?_⟩
  simp [processToken, hne, hfind]

/-- Witness for C2 on a concrete table: both `optFirst` and `optSecond`
match the token `--abc`, and only `optFirst`, the earlier entry, is
invoked, with captures `["bc"]`. -/
theorem C2_first_match_wins_witness :
    ([optFirst, optSecond][0]? = some optFirst ∧
      optFirst.matchFn "--abc" = some ["bc"] ∧
      (∀ j oj, j < 0 → [optFirst, optSecond][j]? = some oj →
        oj.matchFn "--abc" = none) ∧
      processToken [optFirst, optSecond] ⟨false, (), [], []⟩ "--abc" =
        { showUsage := false, state := optFirst.h_ ["bc"] (),
          invocations := [] ++ [(0, ["bc"])], stderr := [] }) ∧
    optSecond.matchFn "--abc" = some ["c"] :=
  ⟨C2_first_match_wins [optFirst, optSecond] "--abc" ⟨false, (), [], []⟩
    optFirst 0 ["bc"] (by decide) rfl, rfl⟩

/-- Claim C3: for every argument vector containing the literal token
`--help`, `parseCmdLine` returns `false` and the usage listing is printed,
regardless of the other tokens' validity; the handlers of the other,
matching tokens are still invoked (the invocation trace and final state
are exactly those of the per-token first matches). -/
theorem C3_help_forces_failure {σ : Type} (prog : String) (args : List String)
    (opts : List (Opt σ)) (s : σ) (h : "--help" ∈ args) :
    (parseCmdLine prog args opts s).ret = false ∧
      (parseCmdLine prog args opts s).stdout = usageLines prog opts ∧
      (parseCmdLine prog args opts s).invocations = tokenTrace opts args ∧
      (parseCmdLine prog args opts s).state = stateTrace opts args s := by
  have hu := usageRequested_of_help_mem opts args h
  refine ⟨?_, ?_, parseCmdLine_invocations prog args opts s,
    parseCmdLine_state prog args opts s⟩
  · rw [parseCmdLine_ret, hu]
    rfl
  · rw [parseCmdLine_stdout, hu]
    rfl

/-- Witness for C3: `--help` together with a valid token `--abc`; the call
fails and prints usage while `--abc` is still dispatched. -/
theorem C3_help_forces_failure_witness :
    (parseCmdLine "p" ["--abc", "--help"] [optFirst] ()).ret = false ∧
      (parseCmdLine "p" ["--abc", "--help"] [optFirst] ()).stdout
        = usageLines "p" [optFirst] ∧
      (parseCmdLine "p" ["--abc", "--help"] [optFirst] ()).invocations
        = tokenTrace [optFirst] ["--abc", "--help"] ∧
      (parseCmdLine "p" ["--abc", "--help"] [optFirst] ()).state
        = stateTrace [optFirst] ["--abc", "--help"] () :=
  C3_help_forces_failure "p" ["--abc", "--help"] [optFirst] () (by decide)

/-- Claim C4 as stated is false at a concrete input: with the empty table
and argument vector `["--help"]`, the vector contains a token (`--help`)
matching no descriptor's pattern, and the call does return `false` and
print usage — but stderr is empty: no `Unrecognised option: --help`
diagnostic is printed for that token, because a `--help` token is consumed
by the help check (lines 68-71) before the unmatched-token diagnostic
(lines 89-93) can run. -/
theorem C4_counterexample :
    ("--help" ∈ ["--help"]) ∧
      findOpt ([] : List (Opt Unit)) "--help" = none ∧
      (parseCmdLine "prog" ["--help"] ([] : List (Opt Unit)) ()).ret = false ∧
      (parseCmdLine "prog" ["--help"] ([] : List (Opt Unit)) ()).stderr = [] :=
  ⟨by decide, rfl, rfl, rfl⟩

/-- Claim C4 (amended): for every argument vector containing at least one
token *other than the literal `--help`* that matches no descriptor's
pattern, `parseCmdLine` returns `false`, prints the diagnostic
`Unrecognised option: <token>` to standard error for each such non-help
token (parsing continues across all remaining tokens — stderr is exactly
the ordered list of per-token diagnostics), and prints the usage listing
exactly once at the end (stdout is exactly one usage listing). -/
theorem C4_unmatched_forces_failure {σ : Type} (prog : String)
    (args : List String) (opts : List (Opt σ)) (s : σ)
    (h : ∃ tok ∈ args, tok ≠ "--help" ∧ findOpt opts tok = none) :
    (parseCmdLine prog args opts s).ret = false ∧
      (parseCmdLine prog args opts s).stderr = errTrace opts args ∧
      (∀ tok ∈ args, tok ≠ "--help" → findOpt opts tok = none →
        ("Unrecognised option: " ++ tok) ∈ (parseCmdLine prog args opts s).stderr) ∧
      (parseCmdLine prog args opts s).stdout = usageLines prog opts := by
  obtain ⟨tok0, hmem0, hne0, hnone0⟩ := h
  have hu := usageRequested_of_unmatched opts args tok0 hmem0 hnone0
  refine ⟨?_, parseCmdLine_stderr prog args opts s, ?_, ?_⟩
  · rw [parseCmdLine_ret, hu]
    rfl
  · intro tok hmem hne hnone
    rw [parseCmdLine_stderr]
    exact List.mem_filterMap.mpr ⟨tok, hmem, by simp [hne, hnone]⟩
  · rw [parseCmdLine_stdout, hu]
    rfl

/-- Witness for the amended C4: `["--zz", "--abc"]` against the table
`[optFirst]` — `--zz` is unmatched, so the call fails, the diagnostic for
`--zz` is printed, and one usage listing is produced. -/
theorem C4_unmatched_forces_failure_witness :
    (parseCmdLine "p" ["--zz", "--abc"] [optFirst] ()).ret = false ∧
      (parseCmdLine "p" ["--zz", "--abc"] [optFirst] ()).stderr
        = errTrace [optFirst] ["--zz", "--abc"] ∧
      (∀ tok ∈ ["--zz", "--abc"], tok ≠ "--help" →
        findOpt [optFirst] tok = none →
        ("Unrecognised option: " ++ tok)
          ∈ (parseCmdLine "p" ["--zz", "--abc"] [optFirst] ()).stderr) ∧
      (parseCmdLine "p" ["--zz", "--abc"] [optFirst] ()).stdout
        = usageLines "p" [optFirst] :=
  C4_unmatched_forces_failure "p" ["--zz", "--abc"] [optFirst] ()
    ⟨"--zz", by decide, by decide, rfl⟩

/-- Claim C5 as stated is false at a concrete input: the table
`[helpMatcher]` has a descriptor whose pattern matches the token `--help`,
so the vector `["--help"]` is composed entirely of tokens that each match
some descriptor's pattern — yet the call returns `false`, no handler is
invoked, and the state is untouched (the handler would have set it to
`true`): the help check runs before the table scan. -/
theorem C5_counterexample :
    (∀ tok ∈ ["--help"], ∃ o ∈ [helpMatcher], (o.matchFn tok).isSome) ∧
      (parseCmdLine "prog" ["--help"] [helpMatcher] false).ret = false ∧
      (parseCmdLine "prog" ["--help"] [helpMatcher] false).invocations = [] ∧
      (parseCmdLine "prog" ["--help"] [helpMatcher] false).state = false := by
  refine ⟨?_, rfl, rfl, rfl⟩
  intro tok hmem
  refine ⟨helpMatcher, by simp, ?_⟩
  have : tok = "--help" := by simpa using hmem
  rw [this]
  rfl

/-- Claim C5 (amended): for every argument vector composed entirely of
tokens that each match some descriptor's pattern *and none of which is the
literal `--help`*, `parseCmdLine` returns `true` and invokes exactly the
matching handler for each token, in argument order: the invocation trace
is the per-token first match, its length is the number of tokens, and the
final state is the in-order application of exactly those handlers. -/
theorem C5_all_matched_success {σ : Type} (prog : String) (args : List String)
    (opts : List (Opt σ)) (s : σ)
    (h : ∀ tok ∈ args, tok ≠ "--help" ∧ (findOpt opts tok).isSome) :
    (parseCmdLine prog args opts s).ret = true ∧
      (parseCmdLine prog args opts s).invocations = tokenTrace opts args ∧
      (parseCmdLine prog args opts s).invocations.length = args.length ∧
      (parseCmdLine prog args opts s).state = stateTrace opts args s := by
  have hu : usageRequested opts args = false :=
    (usageRequested_eq_false_iff opts args).2 h
  refine ⟨?_, parseCmdLine_invocations prog args opts s, ?_,
    parseCmdLine_state prog args opts s⟩
  · rw [parseCmdLine_ret, hu]
    rfl
  · rw [parseCmdLine_invocations]
    exact tokenTrace_length opts args h

/-- Witness for the amended C5: `["--abc"]` against `[optFirst]` — the
call succeeds with exactly one invocation. -/
theorem C5_all_matched_success_witness :
    (parseCmdLine "p" ["--abc"] [optFirst] ()).ret = true ∧
      (parseCmdLine "p" ["--abc"] [optFirst] ()).invocations
        = tokenTrace [optFirst] ["--abc"] ∧
      (parseCmdLine "p" ["--abc"] [optFirst] ()).invocations.length
        = ["--abc"].length ∧
      (parseCmdLine "p" ["--abc"] [optFirst] ()).state
        = stateTrace [optFirst] ["--abc"] () :=
  C5_all_matched_success "p" ["--abc"] [optFirst] ()
    (by intro tok hmem
        have : tok = "--abc" := by simpa using hmem
        subst this
        exact ⟨by decide, rfl⟩)

/-- Claim C6: whenever usage is requested (the call fails), the stdout
lines are the line `Usage: <program name>`, then one line per descriptor
in table order of the form `  <pattern>:<TAB><help text>`, followed by a
blank line. -/
theorem C6_usage_format {σ : Type} (prog : String) (args : List String)
    (opts : List (Opt σ)) (s : σ)
    (h : (parseCmdLine prog args opts s).ret = false) :
    (parseCmdLine prog args opts s).stdout
      = ("Usage: " ++ prog) ::
          (opts.map (fun o => "  " ++ o.pattern ++ ":\t" ++ o.helpText) ++ [""]) := by
  have hu : usageRequested opts args = true := by
    rw [parseCmdLine_ret] at h
    cases hq : usageRequested opts args
    · rw [hq] at h
      simp at h
    · rfl
  rw [parseCmdLine_stdout, hu]
  simp [usageLines, Opt.help_]

/-- Witness for C6: the usage listing printed for the failing call
`parseCmdLine "p" ["--help"] [optFirst]`. -/
theorem C6_usage_format_witness :
    (parseCmdLine "p" ["--help"] [optFirst] ()).stdout
      = ("Usage: " ++ "p") ::
          ([optFirst].map (fun o => "  " ++ o.pattern ++ ":\t" ++ o.helpText) ++ [""]) :=
  C6_usage_format "p" ["--help"] [optFirst] () rfl

/-- Claim C7: a descriptor matches a token only when its pattern matches
the entire token (`std::regex_match`, line 79), not merely a substring: if
the descriptor's regular expression matches a proper substring of the
token but not the whole token, the descriptor rejects the token, the table
scan finds no match, and (for a non-help token) the parse treats it as
unrecognised. -/
theorem C7_full_match_only {σ : Type} (r : Regex) (pat hlp : String)
    (hd : List String → σ → σ) (prog tok : String) (s : σ)
    (pre sub suf : List Char)
    (hsplit : tok.data = pre ++ sub ++ suf)
    (hproper : pre ≠ [] ∨ suf ≠ [])
    (hsub : rmatch r sub = true)
    (hfull : rmatch r tok.data = false) :
    (Opt.ofRegex r pat hlp hd).matchFn tok = none ∧
      findOpt [Opt.ofRegex r pat hlp hd] tok = none ∧
      (tok ≠ "--help" →
        (parseCmdLine prog [tok] [Opt.ofRegex r pat hlp hd] s).ret = false ∧
        (parseCmdLine prog [tok] [Opt.ofRegex r pat hlp hd] s).stderr
          = ["Unrecognised option: " ++ tok]) := by
  have hm : (Opt.ofRegex r pat hlp hd).matchFn tok = none := by
    simp [Opt.ofRegex, hfull]
  have hf : findOpt [Opt.ofRegex r pat hlp hd] tok = none := by
    simp [findOpt, hm]
  refine ⟨hm, hf, fun hne => ⟨?_, ?_⟩⟩
  · rw [parseCmdLine_ret,
      usageRequested_of_unmatched [Opt.ofRegex r pat hlp hd] [tok] tok (by simp) hf]
    rfl
  · rw [parseCmdLine_stderr]
    simp [errTrace, hne, hf]

/-- Witness for C7: the pattern `ab` matches the proper substring `ab` of
the token `abc` but not the whole token, so the token is treated as
unrecognised. -/
theorem C7_full_match_only_witness :
    (Opt.ofRegex (Regex.lit "ab") "ab" "two letters"
        (fun _ (s : Unit) => s)).matchFn "abc" = none ∧
      findOpt [Opt.ofRegex (Regex.lit "ab") "ab" "two letters"
        (fun _ (s : Unit) => s)] "abc" = none ∧
      ("abc" ≠ "--help" →
        (parseCmdLine "p" ["abc"] [Opt.ofRegex (Regex.lit "ab") "ab" "two letters"
          (fun _ (s : Unit) => s)] ()).ret = false ∧
        (parseCmdLine "p" ["abc"] [Opt.ofRegex (Regex.lit "ab") "ab" "two letters"
          (fun _ (s : Unit) => s)] ()).stderr
          = ["Unrecognised option: " ++ "abc"]) :=
  C7_full_match_only (Regex.lit "ab") "ab" "two letters"
    (fun _ (s : Unit) => s) "p" "abc" () [] ['a', 'b'] ['c']
    (by decide) (Or.inr (by decide)) (by decide) (by decide)

/-- Claim C8: `parseCmdLine` never modifies the Option Table: every
observable except the caller-owned state (return value, invocation trace,
stdout, stderr) is fully determined by the descriptors' patterns, help
strings and match functions — replacing every handler leaves them
unchanged — and the final state is exactly the replay of the recorded
invocations over the table: the only state mutation performed is what the
invoked handlers themselves do. -/
theorem C8_table_read_only {σ τ : Type} (prog : String) (args : List String)
    (opts : List (Opt σ)) (opts2 : List (Opt τ)) (s : σ) (s2 : τ)
    (h : List.Forall₂ OptShape opts opts2) :
    (parseCmdLine prog args opts s).ret = (parseCmdLine prog args opts2 s2).ret ∧
      (parseCmdLine prog args opts s).invocations
        = (parseCmdLine prog args opts2 s2).invocations ∧
      (parseCmdLine prog args opts s).stdout
        = (parseCmdLine prog args opts2 s2).stdout ∧
      (parseCmdLine prog args opts s).stderr
        = (parseCmdLine prog args opts2 s2).stderr ∧
      (parseCmdLine prog args opts s).state
        = (parseCmdLine prog args opts s).invocations.foldl (applyHandler opts) s := by
  have hu := usageRequested_shape h args
  refine ⟨?_, ?_, ?_, ?_, ?_⟩
  · rw [parseCmdLine_ret, parseCmdLine_ret, hu]
  · rw [parseCmdLine_invocations, parseCmdLine_invocations, tokenTrace_shape h args]
  · rw [parseCmdLine_stdout, parseCmdLine_stdout, hu, usageLines_shape h prog]
  · rw [parseCmdLine_stderr, parseCmdLine_stderr, errTrace_shape h args]
  · rw [parseCmdLine_state, parseCmdLine_invocations, stateTrace_eq_foldl]

/-- Witness for C8: `natOptA` and `natOptB` share pattern, help and match
function but have different handlers; parsing `["--inc", "--inc"]` gives
identical observables, and the final state is the replay of the two
recorded invocations. -/
theorem C8_table_read_only_witness :
    (parseCmdLine "p" ["--inc", "--inc"] [natOptA] 0).ret
        = (parseCmdLine "p" ["--inc", "--inc"] [natOptB] 10).ret ∧
      (parseCmdLine "p" ["--inc", "--inc"] [natOptA] 0).invocations
        = (parseCmdLine "p" ["--inc", "--inc"] [natOptB] 10).invocations ∧
      (parseCmdLine "p" ["--inc", "--inc"] [natOptA] 0).stdout
        = (parseCmdLine "p" ["--inc", "--inc"] [natOptB] 10).stdout ∧
      (parseCmdLine "p" ["--inc", "--inc"] [natOptA] 0).stderr
        = (parseCmdLine "p" ["--inc", "--inc"] [natOptB] 10).stderr ∧
      (parseCmdLine "p" ["--inc", "--inc"] [natOptA] 0).state
        = (parseCmdLine "p" ["--inc", "--inc"] [natOptA] 0).invocations.foldl
            (applyHandler [natOptA]) 0 :=
  C8_table_read_only "p" ["--inc", "--inc"] [natOptA] [natOptB] 0 10
    (List.Forall₂.cons ⟨rfl, rfl, rfl⟩ List.Forall₂.nil)

/-- Claim C9: a token equal to the literal `--help` never causes any
descriptor's handler to be invoked, even when some descriptor's pattern
would match the string `--help`: processing a `--help` token only sets
`showUsage` without consulting the table, and dropping the `--help`
tokens from the argument vector changes neither the invocation trace nor
the final state. -/
theorem C9_help_checked_first {σ : Type} (prog : String) (args : List String)
    (opts : List (Opt σ)) (s : σ)
    (hm : (findOpt opts "--help").isSome = true) :
    (∀ acc : ParseState σ, processToken opts acc "--help" =
        { acc with showUsage := true }) ∧
      (parseCmdLine prog args opts s).invocations
        = (parseCmdLine prog (args.filter (fun t => !(t == "--help"))) opts s).invocations ∧
      (parseCmdLine prog args opts s).state
        = (parseCmdLine prog (args.filter (fun t => !(t == "--help"))) opts s).state := by
  refine ⟨fun acc => processToken_help opts acc, ?_, ?_⟩
  · rw [parseCmdLine_invocations, parseCmdLine_invocations,
      tokenTrace_filter_help]
  · rw [parseCmdLine_state, parseCmdLine_state, stateTrace_filter_help]

/-- Witness for C9: the table `[helpish]` would match `--help`, yet
parsing `["--help", "--help"]` dispatches nothing. -/
theorem C9_help_checked_first_witness :
    (∀ acc : ParseState Unit, processToken [helpish] acc "--help" =
        { acc with showUsage := true }) ∧
      (parseCmdLine "p" ["--help", "--help"] [helpish] ()).invocations
        = (parseCmdLine "p" (["--help", "--help"].filter (fun t => !(t == "--help")))
            [helpish] ()).invocations ∧
      (parseCmdLine "p" ["--help", "--help"] [helpish] ()).state
        = (parseCmdLine "p" (["--help", "--help"].filter (fun t => !(t == "--help")))
            [helpish] ()).state :=
  C9_help_checked_first "p" ["--help", "--help"] [helpish] () rfl

/-- Claim C10: for an empty argument vector, `parseCmdLine` returns
`true`, invokes no handler, leaves the state untouched and prints nothing
to stdout or stderr, for every Option Table including the empty one. -/
theorem C10_empty_args {σ : Type} (prog : String) (opts : List (Opt σ)) (s : σ) :
    parseCmdLine prog [] opts s
      = { ret := true, state := s, invocations := [], stdout := [], stderr := [] } :=
  rfl
